import Mathlib

/-!
Verification of the exchange scheduling engine of Mys_Goods_Tool
(`src/mys_goods_tool/exchange_mode.py`), as a shallow embedding in Lean 4.

Pure data is embedded as Lean structures; the stateful scheduler is
embedded as the list of jobs it registers; fallible Python code is
embedded in `Except` (an uncaught Python exception becomes
`Except.error`); external collaborators (the remote exchange call, the
`ping3` echo probe) are passed in as explicit oracles.
-/

/-! ## Data model -/

/-- Modelled from the spec: `Good` lives in `user_data.py`, which is not
under `src/`. Only the fields read by `exchange_mode.py` are modelled:
`time` (the target fire time as a Unix timestamp, the argument of
`datetime.fromtimestamp` at line 103), `goods_name`, `general_name` and
`time_text`. -/
structure Good where
  time : Int
  goods_name : String
  general_name : String
  time_text : String
deriving DecidableEq

/-- Modelled from the spec: the account record of `user_data.py` (not under
`src/`); `exchange_mode.py` reads only `bbs_uid`. -/
structure Account where
  bbs_uid : String
deriving DecidableEq

/-- Modelled from the spec: game-record reference of a plan; only
`game_role_id` is read by `exchange_mode.py`. -/
structure GameRecord where
  game_role_id : String
deriving DecidableEq

/-- Modelled from the spec: shipping-address reference of a plan; only
`addr_ext` is read by `exchange_mode.py`. -/
structure Address where
  addr_ext : String
deriving DecidableEq

/-- Modelled from the spec: `ExchangePlan` (`user_data.py`, not under
`src/`): one scheduled attempt, bound to an account, a good, and optional
game-record / address references. -/
structure ExchangePlan where
  account : Account
  good : Good
  game_record : Option GameRecord
  address : Option Address
deriving DecidableEq

/-- Modelled from the spec: `ExchangeStatus` (`data_model.py`, not under
`src/`): mutually-describable outcome flags; the nine failure flags are
exactly the ones read by `_on_fail` in `exchange_mode.py` lines 38–55,
plus the `success` flag of spec §3. -/
structure ExchangeStatus where
  network_error : Bool
  missing_stoken : Bool
  missing_mid : Bool
  missing_address : Bool
  missing_game_uid : Bool
  unsupported_game : Bool
  failed_getting_game_record : Bool
  init_required : Bool
  account_not_found : Bool
  success : Bool
deriving DecidableEq

/-- The all-false status record, used to build concrete statuses. -/
def ExchangeStatus.allFalse : ExchangeStatus :=
  ⟨false, false, false, false, false, false, false, false, false, false⟩

/-- Modelled from the spec: `ExchangeResult` (`user_data.py`, not under
`src/`) pairs a plan with its terminal status and completion time; the only
field `exchange_mode.py` reads is `plan`, so only it is modelled. -/
structure ExchangeResult where
  plan : ExchangePlan
deriving DecidableEq

/-- Modelled from the spec: the preference record of `user_data.py` (not
under `src/`), restricted to the fields `exchange_mode.py` reads: the
timezone, the connectivity-test enable flag and interval, and the
latency-jitter window `exchange_latency = (min, max)`. Optional fields are
`Option`; Python falsiness of the stored values is applied at the use
sites (`pyOrQ`, `pyOrStr` below), exactly where the source uses `or`. -/
structure Preference where
  timezone : Option String
  enable_connection_test : Bool
  connection_test_interval : Option ℚ
  exchange_latency : ℚ × ℚ
deriving DecidableEq

/-- Modelled from the spec: the class-level default of
`Preference.connection_test_interval` (seconds) used at line 96; the
numeric value is not visible under `src/`, only that a positive default
interval exists (spec §4.1), so 30 is used. -/
def Preference.connection_test_interval_default : ℚ := 30

/-- Modelled from the spec: the class-level default of
`Preference.timezone` used at line 93. -/
def Preference.timezone_default : String := "Asia/Shanghai"

/-- Modelled from the spec: the loaded configuration `conf` of
`user_data.py` (not under `src/`): the preference record and the ordered
sequence of exchange plans. -/
structure Config where
  preference : Preference
  exchange_plans : List ExchangePlan
deriving DecidableEq

/-- Python `x or default` on an optional rational: `None` and `0` are
falsy, every other value is returned unchanged. -/
def pyOrQ : Option ℚ → ℚ → ℚ
  | none, d => d
  | some v, d => if v = 0 then d else v

/-- Python `x or default` on an optional string: `None` and the empty
string are falsy. -/
def pyOrStr : Option String → String → String
  | none, d => d
  | some s, d => if s = "" then d else s

/-! ## The scheduler timetable (`get_scheduler`, lines 88–106) -/

/-- Which Python function a registered job runs. -/
inductive JobFunc where
  | connectionTest
  | exchangeBegin
deriving DecidableEq

/-- An APScheduler trigger: `"interval"` with a period in seconds, or
`"date"` with an absolute run date. `datetime.fromtimestamp` (line 103)
renders the Unix timestamp as a local datetime denoting the same instant,
so the run date is embedded as the timestamp itself. -/
inductive Trigger where
  | interval (seconds : ℚ)
  | date (runDate : Int)
deriving DecidableEq

/-- One entry of the scheduler timetable: the job function, its trigger,
and its argument list (`args=[plan]` for `exchange_begin`, no argument for
`_connection_test`). -/
structure Job where
  func : JobFunc
  trigger : Trigger
  arg : Option ExchangePlan
deriving DecidableEq

/-- `j.isOneShot` holds for `"date"`-triggered jobs, which fire once and
are then removed. -/
def Job.isOneShot : Job → Bool
  | ⟨_, Trigger.date _, _⟩ => true
  | _ => false

/-- `j.isRecurring` holds for `"interval"`-triggered jobs. -/
def Job.isRecurring : Job → Bool
  | ⟨_, Trigger.interval _, _⟩ => true
  | _ => false

/-- The one-shot job registered for one plan at lines 100–104:
`exchange_begin` with argument `plan`, date trigger at
`datetime.fromtimestamp(plan.good.time)`. -/
def planJob (plan : ExchangePlan) : Job :=
  ⟨JobFunc.exchangeBegin, Trigger.date plan.good.time, some plan⟩

/-- The scheduler returned by `get_scheduler`: its configured timezone and
the timetable of registered jobs. -/
structure Scheduler where
  timezone : String
  jobs : List Job
deriving DecidableEq

/-- Embedding of `get_scheduler` (lines 88–106): configure the timezone
(`conf.preference.timezone or Preference.timezone`); if
`enable_connection_test`, add one interval job running `_connection_test`
every `conf.preference.connection_test_interval or
Preference.connection_test_interval` seconds; then add, for each plan in
`conf.exchange_plans` in order, one date job running `exchange_begin` at
the plan's target time. -/
def get_scheduler (conf : Config) : Scheduler :=
  { timezone := pyOrStr conf.preference.timezone Preference.timezone_default
    jobs :=
      (if conf.preference.enable_connection_test then
        [⟨JobFunc.connectionTest,
          Trigger.interval
            (pyOrQ conf.preference.connection_test_interval
              Preference.connection_test_interval_default),
          none⟩]
      else []) ++ conf.exchange_plans.map planJob }

/-- The recurring jobs of a scheduler's timetable. -/
def Scheduler.recurringJobs (s : Scheduler) : List Job :=
  s.jobs.filter Job.isRecurring

/-- The one-shot jobs of a scheduler's timetable. -/
def Scheduler.oneShotJobs (s : Scheduler) : List Job :=
  s.jobs.filter Job.isOneShot

/-- Modelled from the spec: the dispatch loop that fires due jobs is the
third-party APScheduler library, not code under `src/`. Spec §4.1, §8 and
§9 state catch-up semantics: a one-shot job whose run date has already
passed when the engine starts fires immediately, not at the past time.
`dispatchTime now runDate` is the instant such a job fires when the engine
is running at instant `now`. -/
def dispatchTime (now : Int) (runDate : Int) : Int := max runDate now

/-! ## The connectivity probe (`_get_api_host`, `_connection_test`, lines 62–85) -/

/-- A return value of `ping3.ping(hostname, unit="ms")` with its default
settings: `None` on timeout, `False` on an unreachable/failed host, or the
measured round-trip time in milliseconds. -/
inductive PingReturn where
  | timeout
  | failed
  | delay (ms : ℚ)
deriving DecidableEq

/-- A value `_connection_test` can return (and the Python type of
`ExchangeModePing.ping_value`, `Union[float, bool, None]`): Python `None`,
Python `False`, or a numeric latency. -/
inductive PingValue where
  | noneValue
  | falseValue
  | delayValue (ms : ℚ)
deriving DecidableEq

/-- The observable behaviour of one `_connection_test` call: the returned
value and how many echo probes were issued. -/
structure ProbeRun where
  value : PingValue
  pingsIssued : Nat
deriving DecidableEq

/-- Embedding of `_get_api_host` (lines 62–67). `URL_EXCHANGE` and its
parsing live in `api.py`, not under `src/`, so the parsed hostname
(`urlparse(URL_EXCHANGE).hostname`, a string or `None`) is a parameter;
the source returns `str(hostname) if hostname else None`, so an empty
(falsy) hostname also maps to `None`. -/
def _get_api_host (parsedHostname : Option String) : Option String :=
  match parsedHostname with
  | none => none
  | some h => if h = "" then none else some h

/-- Embedding of `_connection_test` (lines 70–85), with `ping3.ping`
passed as an oracle. On hostname-resolution failure it logs a warning and
returns `False` without issuing a probe; otherwise it issues one probe and
returns exactly what `ping3.ping` returned: `None` (timeout), `False`
(failure), or the raw measured delay. The `round(result, 2)` at line 84
occurs only inside the logged message, not in the returned value. -/
def _connection_test (parsedHostname : Option String)
    (ping : String → PingReturn) : ProbeRun :=
  match _get_api_host parsedHostname with
  | none => ⟨PingValue.falseValue, 0⟩
  | some h =>
    match ping h with
    | PingReturn.timeout => ⟨PingValue.noneValue, 1⟩
    | PingReturn.failed => ⟨PingValue.falseValue, 1⟩
    | PingReturn.delay ms => ⟨PingValue.delayValue ms, 1⟩

/-- Rounding to two decimal places, `round(q, 2)`. Python rounds ties
half-to-even; no tie occurs at the inputs considered here, where this
agrees with the usual `round`. -/
def round2 (q : ℚ) : ℚ := round (q * 100) / 100

/-! ## The exchange attempt (`exchange_begin`, lines 109–121) -/

/-- `random.uniform a b` as a function of the underlying
`random.random()` draw `u ∈ [0, 1]`: `a + (b - a) * u`. -/
def randomUniform (a b u : ℚ) : ℚ := a + (b - a) * u

/-- The observable behaviour of one `exchange_begin` call: the latency it
drew, the duration it passed to `asyncio.sleep`, and the value it
returned (which APScheduler then exposes as `event.retval`). -/
structure AttemptTrace where
  latency : ℚ
  slept : ℚ
  result : ExchangeStatus × Option ExchangeResult
deriving DecidableEq

/-- Embedding of `exchange_begin` (lines 109–121). `good_exchange` lives
in `api.py`, not under `src/`; modelled from the spec (§4.2, §6): the
remote exchange call wraps every transport- and domain-level failure into
a status flag and returns a `(status, result)` pair, so it is passed as a
total oracle. `u` is the `random.random()` draw behind `random.uniform`.
The body draws `latency = random.uniform(min, max)` from
`conf.preference.exchange_latency = (min, max)`, sleeps for exactly that
duration, awaits the exchange call and returns its pair; no operation in
the body can raise, so the run is always `Except.ok`. -/
def exchange_begin (pref : Preference) (u : ℚ)
    (goodExchangeCall : ExchangePlan → ExchangeStatus × Option ExchangeResult)
    (plan : ExchangePlan) : Except String AttemptTrace :=
  let latency := randomUniform pref.exchange_latency.1 pref.exchange_latency.2 u
  Except.ok ⟨latency, latency, goodExchangeCall plan⟩

/-! ## Job-executed events and their listeners -/

/-- The `event.retval` of an `EVENT_JOB_EXECUTED` event: the value
returned by whichever job ran — the `(status, result)` pair of
`exchange_begin`, or the ping value of `_connection_test`. -/
inductive RetVal where
  | attempt (r : ExchangeStatus × Option ExchangeResult)
  | probe (v : PingValue)
deriving DecidableEq

/-- An APScheduler `JobExecutionEvent`, restricted to the field the
listeners read. -/
structure JobExecutionEvent where
  retval : RetVal
deriving DecidableEq

/-- Modelled from the spec and APScheduler's listener contract (the
scheduler library is third-party, not under `src/`):
`add_listener(f, EVENT_JOB_EXECUTED)` delivers to `f` the execution event
of every job that finishes, with no discrimination by which job produced
it. `src/exchange_mode.py` registers `on_executed` (line 135),
`ExchangeResultRow.on_executed` (line 323) and
`ExchangeModePing.update_ping` (line 358) all with this same mask and
performs no job-based filtering anywhere, so the events a listener
receives are exactly all executed-job events. -/
def deliveredEvents (executed : List JobExecutionEvent) :
    List JobExecutionEvent := executed

/-- What the `on_executed` listener body observably does with a retval. -/
inductive HandlerOutcome where
  | logSuccess (bbs_uid : String) (general_name : String)
  | logFailure (bbs_uid : String) (general_name : String)
deriving DecidableEq

/-- The Python error raised when the failure branch of `on_executed`
evaluates an attribute of the absent (`None`) result. -/
def attributeErrorMsg : String :=
  "AttributeError: NoneType object has no attribute plan"

/-- The Python error raised when a listener unpacks a retval that is not a
2-tuple (a float, `None` or `False` from `_connection_test`). -/
def typeErrorMsg : String :=
  "TypeError: cannot unpack non-iterable object"

/-- Embedding of the body of `on_executed` in `exchange_mode_simple`
(lines 136–147), applied to an attempt retval. `if exchange_result:` takes
the success branch exactly when the result is present (a result object is
always truthy); in the `else` branch the source evaluates
`exchange_result.plan.account.bbs_uid` although `exchange_result` is
`None` there, which raises `AttributeError`. -/
def on_executed (retval : ExchangeStatus × Option ExchangeResult) :
    Except String HandlerOutcome :=
  match retval.2 with
  | some r =>
    Except.ok (HandlerOutcome.logSuccess r.plan.account.bbs_uid
      r.plan.good.general_name)
  | none => Except.error attributeErrorMsg

/-- What `ExchangeResultRow.on_executed` observably does: mount a success
static or a failure static. -/
inductive RowOutcome where
  | mountSuccess
  | mountFailure
deriving DecidableEq

/-- Embedding of `ExchangeResultRow.on_executed` (lines 323–339): same
shape as `on_executed` above — the `else` branch at lines 335–336 also
evaluates `exchange_result.plan.account.bbs_uid` with `exchange_result =
None` before mounting the failure static, raising `AttributeError`. -/
def exchangeResultRow_on_executed
    (retval : ExchangeStatus × Option ExchangeResult) :
    Except String RowOutcome :=
  match retval.2 with
  | some _ => Except.ok RowOutcome.mountSuccess
  | none => Except.error attributeErrorMsg

/-- A listener body applied to a raw delivered event must first unpack
`event.retval` as a 2-tuple (line 141 / line 329); on a probe retval
(float, `None` or `False`) that unpacking raises `TypeError`. -/
def on_executed_event (e : JobExecutionEvent) : Except String HandlerOutcome :=
  match e.retval with
  | RetVal.attempt r => on_executed r
  | RetVal.probe _ => Except.error typeErrorMsg

/-- The value `ExchangeModePing.ping_value` holds after `update_ping`
ran: the raw `event.retval`, which is a ping value only when the event
came from a `_connection_test` job, and an attempt `(status, result)`
tuple when it came from an `exchange_begin` job. -/
inductive PingDisplayValue where
  | fromProbe (v : PingValue)
  | fromAttempt (r : ExchangeStatus × Option ExchangeResult)
deriving DecidableEq

/-- Embedding of `ExchangeModePing.update_ping` (lines 358–363): it stores
`event.retval` into `ping_value` unconditionally, whatever job produced
the event. -/
def update_ping (e : JobExecutionEvent) : PingDisplayValue :=
  match e.retval with
  | RetVal.probe v => PingDisplayValue.fromProbe v
  | RetVal.attempt r => PingDisplayValue.fromAttempt r

/-- Embedding of `ExchangeModePing.DEFAULT_VALUE` (line 351): the initial
`ping_value` before any probe completes is the Python literal `False`. -/
def ExchangeModePing.DEFAULT_VALUE : PingValue := PingValue.falseValue

/-! ## The simple text mode (`exchange_mode_simple`, lines 124–155) -/

/-- The observable behaviour of one `exchange_mode_simple` call up to its
blocking loop: whether the no-plans message was logged, the scheduler it
built (if any), and whether the event loop was started. -/
structure SimpleModeRun where
  logged_no_plans : Bool
  scheduler : Option Scheduler
  loop_started : Bool
deriving DecidableEq

/-- Embedding of `exchange_mode_simple` (lines 124–155): if
`conf.exchange_plans` is falsy (empty), log `无兑换计划需要执行` and return at
once — no scheduler is constructed, no job registered, no event loop run;
otherwise build the scheduler, start it and run the loop forever. -/
def exchange_mode_simple (conf : Config) : SimpleModeRun :=
  if conf.exchange_plans.isEmpty then
    ⟨true, none, false⟩
  else
    ⟨false, some (get_scheduler conf), true⟩

/-! ## Concrete data for witnesses and counterexamples -/

/-- A concrete good whose target time is the Unix timestamp 1700000000. -/
def good0 : Good := ⟨1700000000, "GoodsA", "GoodsA", "2023-11-15 06:13:20"⟩

/-- A concrete plan. -/
def plan0 : ExchangePlan := ⟨⟨"123456789"⟩, good0, none, none⟩

/-- A concrete preference: connectivity test enabled at the default
interval, latency window [1/10, 1/5]. -/
def pref0 : Preference := ⟨none, true, none, (1/10, 1/5)⟩

/-- A concrete configuration with one plan. -/
def conf0 : Config := ⟨pref0, [plan0]⟩

/-- A configuration whose connectivity-test interval is configured (set)
but zero — set yet falsy for Python `or`. -/
def conf_interval0 : Config := ⟨⟨none, true, some 0, (1/10, 1/5)⟩, []⟩

/-- A concrete configuration with no plans. -/
def conf_empty : Config := ⟨pref0, []⟩

/-- The status whose only raised flag is `missing_address`. -/
def statusMissingAddress : ExchangeStatus :=
  { ExchangeStatus.allFalse with missing_address := true }

/-- The status whose only raised flag is `success`. -/
def statusSuccess : ExchangeStatus :=
  { ExchangeStatus.allFalse with success := true }

/-- The execution event of a completed `_connection_test` job measuring
50 ms. -/
def probeEvent0 : JobExecutionEvent := ⟨RetVal.probe (PingValue.delayValue 50)⟩

/-- The execution event of a completed `exchange_begin` job that
succeeded for `plan0`. -/
def attemptEvent0 : JobExecutionEvent :=
  ⟨RetVal.attempt (statusSuccess, some ⟨plan0⟩)⟩

/-- A total exchange-call oracle used by concrete witnesses. -/
def goodExchange0 : ExchangePlan → ExchangeStatus × Option ExchangeResult :=
  fun _ => (statusSuccess, some ⟨plan0⟩)

/-! ## Helper lemmas -/

@[simp] theorem planJob_isOneShot (p : ExchangePlan) :
    (planJob p).isOneShot = true := rfl

@[simp] theorem planJob_isRecurring (p : ExchangePlan) :
    (planJob p).isRecurring = false := rfl

@[simp] theorem planJob_arg (p : ExchangePlan) :
    (planJob p).arg = some p := rfl

@[simp] theorem interval_not_oneShot (f : JobFunc) (s : ℚ)
    (a : Option ExchangePlan) :
    Job.isOneShot ⟨f, Trigger.interval s, a⟩ = false := rfl

@[simp] theorem interval_isRecurring (f : JobFunc) (s : ℚ)
    (a : Option ExchangePlan) :
    Job.isRecurring ⟨f, Trigger.interval s, a⟩ = true := rfl

theorem filter_oneShot_planJobs (plans : List ExchangePlan) :
    (plans.map planJob).filter Job.isOneShot = plans.map planJob := by
  induction plans with
  | nil => rfl
  | cons p ps ih => simp [List.filter_cons, ih]

theorem filter_recurring_planJobs (plans : List ExchangePlan) :
    (plans.map planJob).filter Job.isRecurring = [] := by
  induction plans with
  | nil => rfl
  | cons p ps ih => simp [List.filter_cons, ih]

theorem count_oneShot_planJobs (plans : List ExchangePlan) (p : ExchangePlan) :
    ((plans.map planJob).filter
      (fun j => j.isOneShot && j.arg == some p)).length = plans.count p := by
  induction plans with
  | nil => rfl
  | cons q ps ih =>
    by_cases hqp : q = p
    · subst hqp
      simp [List.filter_cons, List.count_cons, ih]
    · simp [List.filter_cons, List.count_cons, hqp, ih]

theorem randomUniform_mem (a b u : ℚ) (hab : a ≤ b) (hu0 : 0 ≤ u)
    (hu1 : u ≤ 1) : a ≤ randomUniform a b u ∧ randomUniform a b u ≤ b := by
  unfold randomUniform
  constructor
  · nlinarith [mul_nonneg (sub_nonneg.mpr hab) hu0]
  · nlinarith [mul_le_of_le_one_right (sub_nonneg.mpr hab) hu1]

/-! ## Claim theorems -/

/-- C1: for every configuration, the one-shot jobs of the scheduler built
by `get_scheduler` are exactly one job per configured plan, in order, each
with fire time the plan's target time and carrying the plan as argument;
the number of one-shot jobs for a plan equals its multiplicity in the
list, so for a duplicate-free plan list every plan maps to at most one
one-shot job. -/
theorem c1_one_oneshot_job_per_plan (conf : Config) :
    (get_scheduler conf).oneShotJobs = conf.exchange_plans.map planJob ∧
    (∀ p : ExchangePlan,
      ((get_scheduler conf).jobs.filter
        (fun j => j.isOneShot && j.arg == some p)).length
        = conf.exchange_plans.count p) ∧
    (conf.exchange_plans.Nodup →
      ∀ p : ExchangePlan,
        ((get_scheduler conf).jobs.filter
          (fun j => j.isOneShot && j.arg == some p)).length ≤ 1) := by
  have hjobs :
      ∀ p : ExchangePlan,
        ((get_scheduler conf).jobs.filter
          (fun j => j.isOneShot && j.arg == some p)).length
          = conf.exchange_plans.count p := by
    intro p
    unfold get_scheduler
    by_cases h : conf.preference.enable_connection_test <;>
      simp [h, List.filter_append, List.filter_cons,
        count_oneShot_planJobs]
  refine ⟨?_, hjobs, ?_⟩
  · unfold Scheduler.oneShotJobs get_scheduler
    by_cases h : conf.preference.enable_connection_test <;>
      simp [h, List.filter_append, List.filter_cons,
        filter_oneShot_planJobs]
  · intro hnd p
    rw [hjobs p]
    exact List.nodup_iff_count_le_one.mp hnd p

/-- Witness for C1 at the concrete one-plan configuration `conf0`. -/
theorem c1_one_oneshot_job_per_plan_witness :
    (get_scheduler conf0).oneShotJobs = [planJob plan0] ∧
    ((get_scheduler conf0).jobs.filter
      (fun j => j.isOneShot && j.arg == some plan0)).length ≤ 1 :=
  ⟨(c1_one_oneshot_job_per_plan conf0).1,
    (c1_one_oneshot_job_per_plan conf0).2.2 (List.nodup_singleton plan0) plan0⟩

/-- C2: a plan whose target time is already past at registration time is
still registered as a one-shot job (never dropped), and under the spec's
catch-up dispatch semantics (`dispatchTime`, modelled from the spec) that
job fires at the current instant, not at the past target time. -/
theorem c2_past_plans_fire_immediately (conf : Config) (now : Int)
    (plan : ExchangePlan) (hmem : plan ∈ conf.exchange_plans)
    (hpast : plan.good.time ≤ now) :
    planJob plan ∈ (get_scheduler conf).jobs ∧
    (planJob plan).trigger = Trigger.date plan.good.time ∧
    dispatchTime now plan.good.time = now := by
  refine ⟨?_, rfl, max_eq_right hpast⟩
  unfold get_scheduler
  simp only [List.mem_append]
  exact Or.inr (List.mem_map_of_mem planJob hmem)

/-- Witness for C2: the plan of `conf0` with a registration instant five
seconds past its target time. -/
theorem c2_past_plans_fire_immediately_witness :
    plan0 ∈ conf0.exchange_plans ∧ plan0.good.time ≤ 1700000005 ∧
    planJob plan0 ∈ (get_scheduler conf0).jobs ∧
    dispatchTime 1700000005 plan0.good.time = 1700000005 := by
  have hmem : plan0 ∈ conf0.exchange_plans := List.mem_singleton.mpr rfl
  have hpast : plan0.good.time ≤ 1700000005 := by decide
  have h := c2_past_plans_fire_immediately conf0 1700000005 plan0 hmem hpast
  exact ⟨hmem, hpast, h.1, h.2.2⟩

/-- C3: for every latency window with min ≤ max, `exchange_begin` never
raises: the run is `Except.ok` and the returned value is exactly the
status pair produced by the exchange call. -/
theorem c3_exchange_begin_never_raises (pref : Preference) (u : ℚ)
    (g : ExchangePlan → ExchangeStatus × Option ExchangeResult)
    (plan : ExchangePlan)
    (hwin : pref.exchange_latency.1 ≤ pref.exchange_latency.2) :
    ∃ t : AttemptTrace, exchange_begin pref u g plan = Except.ok t ∧
      t.result = g plan :=
  ⟨⟨randomUniform pref.exchange_latency.1 pref.exchange_latency.2 u,
    randomUniform pref.exchange_latency.1 pref.exchange_latency.2 u,
    g plan⟩, rfl, rfl⟩

/-- Witness for C3 at the concrete preference `pref0` (window
[1/10, 1/5]). -/
theorem c3_exchange_begin_never_raises_witness :
    pref0.exchange_latency.1 ≤ pref0.exchange_latency.2 ∧
    ∃ t : AttemptTrace,
      exchange_begin pref0 (1/2) goodExchange0 plan0 = Except.ok t ∧
      t.result = goodExchange0 plan0 :=
  ⟨by norm_num [pref0],
    c3_exchange_begin_never_raises pref0 (1/2) goodExchange0 plan0
      (by norm_num [pref0])⟩

/-- C4: for every latency window with min ≤ max and every underlying draw
u ∈ [0, 1], the latency `exchange_begin` draws is
`random.uniform min max = min + (max - min) * u`, it lies within the
window, and the attempt sleeps for exactly that drawn duration before the
exchange call. -/
theorem c4_latency_within_window (pref : Preference) (u : ℚ)
    (g : ExchangePlan → ExchangeStatus × Option ExchangeResult)
    (plan : ExchangePlan)
    (hwin : pref.exchange_latency.1 ≤ pref.exchange_latency.2)
    (hu0 : 0 ≤ u) (hu1 : u ≤ 1) :
    ∃ t : AttemptTrace, exchange_begin pref u g plan = Except.ok t ∧
      t.latency
        = randomUniform pref.exchange_latency.1 pref.exchange_latency.2 u ∧
      pref.exchange_latency.1 ≤ t.latency ∧
      t.latency ≤ pref.exchange_latency.2 ∧
      t.slept = t.latency := by
  obtain ⟨h1, h2⟩ := randomUniform_mem pref.exchange_latency.1
    pref.exchange_latency.2 u hwin hu0 hu1
  exact ⟨⟨randomUniform pref.exchange_latency.1 pref.exchange_latency.2 u,
    randomUniform pref.exchange_latency.1 pref.exchange_latency.2 u,
    g plan⟩, rfl, rfl, h1, h2, rfl⟩

/-- Witness for C4 at the window [1/10, 1/5] and the draw u = 1/2. -/
theorem c4_latency_within_window_witness :
    pref0.exchange_latency.1 ≤ pref0.exchange_latency.2 ∧
    (0 : ℚ) ≤ 1/2 ∧ (1 : ℚ)/2 ≤ 1 ∧
    ∃ t : AttemptTrace,
      exchange_begin pref0 (1/2) goodExchange0 plan0 = Except.ok t ∧
      t.latency
        = randomUniform pref0.exchange_latency.1 pref0.exchange_latency.2
            (1/2) ∧
      pref0.exchange_latency.1 ≤ t.latency ∧
      t.latency ≤ pref0.exchange_latency.2 ∧
      t.slept = t.latency :=
  ⟨by norm_num [pref0], by norm_num, by norm_num,
    c4_latency_within_window pref0 (1/2) goodExchange0 plan0
      (by norm_num [pref0]) (by norm_num) (by norm_num)⟩

/-- C5 counterexample: at the concrete measurement 1.239 ms the probe
returns the raw value 1239/1000, which has three decimal places — the
returned value is not rounded to two decimal places (the rounding at line
84 occurs only inside the logged message). -/
theorem c5_counterexample :
    (_connection_test (some "h")
      (fun _ => PingReturn.delay (1239/1000))).value
      = PingValue.delayValue (1239/1000) ∧
    round2 (1239/1000) ≠ (1239/1000 : ℚ) := by
  constructor
  · rfl
  · have hfl : ⌊(1239 : ℚ)/1000 * 100 + 1/2⌋ = 124 := by
      rw [Int.floor_eq_iff]
      constructor <;> norm_num
    rw [round2, round_eq, hfl]
    norm_num

/-- C5 (amended): `_connection_test` always terminates in a returned
`ProbeRun`: on hostname-resolution failure it returns the failure marker
`False` without issuing a probe; otherwise it issues exactly one probe and
maps no-response to the timeout marker `None`, an unreachable host to the
failure marker `False`, and a reachable host to the raw measured
round-trip time, which is non-negative whenever the measurement is. -/
theorem c5_probe_totality (ph : Option String) (ping : String → PingReturn) :
    (_get_api_host ph = none →
      _connection_test ph ping = ⟨PingValue.falseValue, 0⟩) ∧
    (∀ h, _get_api_host ph = some h →
      (ping h = PingReturn.timeout →
        _connection_test ph ping = ⟨PingValue.noneValue, 1⟩) ∧
      (ping h = PingReturn.failed →
        _connection_test ph ping = ⟨PingValue.falseValue, 1⟩) ∧
      (∀ ms, ping h = PingReturn.delay ms →
        _connection_test ph ping = ⟨PingValue.delayValue ms, 1⟩) ∧
      (∀ ms, ping h = PingReturn.delay ms → 0 ≤ ms →
        ∃ v, _connection_test ph ping = ⟨PingValue.delayValue v, 1⟩ ∧
          0 ≤ v)) := by
  constructor
  · intro h0
    simp [_connection_test, h0]
  · intro h hh
    refine ⟨?_, ?_, ?_, ?_⟩
    · intro ht
      simp [_connection_test, hh, ht]
    · intro hf
      simp [_connection_test, hh, hf]
    · intro ms hd
      simp [_connection_test, hh, hd]
    · intro ms hd hms
      exact ⟨ms, by simp [_connection_test, hh, hd], hms⟩

/-- Witness for C5 (amended) at a concrete hostname and a timing-out
probe. -/
theorem c5_probe_totality_witness :
    _get_api_host (some "h") = some "h" ∧
    _connection_test (some "h") (fun _ => PingReturn.timeout)
      = ⟨PingValue.noneValue, 1⟩ :=
  ⟨by decide,
    ((c5_probe_totality (some "h") (fun _ => PingReturn.timeout)).2
      "h" (by decide)).1 rfl⟩

/-- C6 counterexample: with the connectivity test enabled and the interval
configured (set) to 0, the recurring job's interval is the class default,
not the configured value — Python `or` treats the set-but-zero interval as
unset. -/
theorem c6_counterexample :
    conf_interval0.preference.enable_connection_test = true ∧
    conf_interval0.preference.connection_test_interval = some 0 ∧
    (get_scheduler conf_interval0).recurringJobs.map Job.trigger
      = [Trigger.interval Preference.connection_test_interval_default] ∧
    Preference.connection_test_interval_default ≠ 0 := by
  refine ⟨rfl, rfl, by decide, by decide⟩

/-- C6 (amended): the timetable contains a recurring connectivity-test job
iff connectivity testing is enabled; when present it is the only recurring
job and its interval is the configured interval when that is set and
nonzero, and the default interval otherwise. -/
theorem c6_recurring_iff_enabled (conf : Config) :
    (conf.preference.enable_connection_test = true →
      (get_scheduler conf).recurringJobs
        = [⟨JobFunc.connectionTest,
            Trigger.interval
              (pyOrQ conf.preference.connection_test_interval
                Preference.connection_test_interval_default), none⟩]) ∧
    (conf.preference.enable_connection_test = false →
      (get_scheduler conf).recurringJobs = []) := by
  constructor <;> intro h <;>
    simp [Scheduler.recurringJobs, get_scheduler, h, List.filter_append,
      List.filter_cons, filter_recurring_planJobs]

/-- Witness for C6 (amended) at the concrete configuration `conf0`
(connectivity test enabled, interval unset). -/
theorem c6_recurring_iff_enabled_witness :
    conf0.preference.enable_connection_test = true ∧
    (get_scheduler conf0).recurringJobs
      = [⟨JobFunc.connectionTest,
          Trigger.interval Preference.connection_test_interval_default,
          none⟩] :=
  ⟨rfl, (c6_recurring_iff_enabled conf0).1 rfl⟩

/-- C7: at the failing input — an executed-job event whose retval is the
pair (missing-address status, absent result) — both result listeners take
the failure branch and raise `AttributeError` by dereferencing the absent
(`None`) result, instead of reporting the failure with the plan's account
and good attached. -/
theorem c7_handlers_crash_on_absent_result :
    on_executed (statusMissingAddress, none)
      = Except.error attributeErrorMsg ∧
    exchangeResultRow_on_executed (statusMissingAddress, none)
      = Except.error attributeErrorMsg :=
  ⟨rfl, rfl⟩

/-- C8: at the failing input — one completed probe job and one completed
attempt job on the shared scheduler — both events are delivered to every
listener registered with `EVENT_JOB_EXECUTED`: the ping listener stores
the attempt's (status, result) tuple as its ping value, and the attempt
listener raises `TypeError` unpacking the probe's payload; no
discrimination by event kind exists. -/
theorem c8_no_event_kind_discrimination :
    deliveredEvents [probeEvent0, attemptEvent0]
      = [probeEvent0, attemptEvent0] ∧
    update_ping attemptEvent0
      = PingDisplayValue.fromAttempt (statusSuccess, some ⟨plan0⟩) ∧
    on_executed_event probeEvent0 = Except.error typeErrorMsg :=
  ⟨rfl, rfl, rfl⟩

/-- C9 counterexample: the initial (pre-first-probe) display value
`ExchangeModePing.DEFAULT_VALUE` is the Python literal `False`, which is
exactly the value `_connection_test` returns for a failed probe — the
untested state is not distinct from the failure outcome. -/
theorem c9_counterexample :
    ExchangeModePing.DEFAULT_VALUE
      = (_connection_test (some "h") (fun _ => PingReturn.failed)).value := by
  decide

/-- C9 (amended): the initial display value is `False`; it is distinct
from the timeout marker and from every numeric latency, but it coincides
with the failure marker, so an untested state is indistinguishable from a
failed probe. -/
theorem c9_initial_value_partially_distinct :
    ExchangeModePing.DEFAULT_VALUE = PingValue.falseValue ∧
    ExchangeModePing.DEFAULT_VALUE ≠ PingValue.noneValue ∧
    (∀ ms : ℚ, ExchangeModePing.DEFAULT_VALUE ≠ PingValue.delayValue ms) ∧
    ExchangeModePing.DEFAULT_VALUE
      = (_connection_test none (fun _ => PingReturn.timeout)).value := by
  refine ⟨rfl, by decide, fun ms => ?_, rfl⟩
  simp [ExchangeModePing.DEFAULT_VALUE]

/-- C10: when the configured exchange-plan list is empty,
`exchange_mode_simple` logs that there are no plans and returns at once:
no scheduler is constructed, no job is registered, and the event loop is
not started. -/
theorem c10_simple_mode_empty_plans (conf : Config)
    (h : conf.exchange_plans = []) :
    exchange_mode_simple conf
      = ⟨true, none, false⟩ := by
  simp [exchange_mode_simple, h]

/-- Witness for C10 at the concrete empty-plan configuration. -/
theorem c10_simple_mode_empty_plans_witness :
    conf_empty.exchange_plans = [] ∧
    exchange_mode_simple conf_empty = ⟨true, none, false⟩ :=
  ⟨rfl, c10_simple_mode_empty_plans conf_empty rfl⟩
